import Mathlib

/-!
Shallow embedding of the premium-video-device pipeline:
`PremiumVideoEffectDriver`, `PremiumVideoStreamHandler` and
`PremiumVideoTransformDevice`.

Machine integers are modelled as `Nat` (pixel bytes are `u8` values, always
in `0..255`); JavaScript's `setTimeout` is modelled by a list of pending
timer identifiers together with explicit "fire" steps (the computed delay
value only decides *when* a timer fires, never *whether*, so delays are not
tracked); DOM objects (video element, canvases) are modelled by their
observable fields kept inside the handler state.
-/

set_option autoImplicit false

namespace PremiumVideo

/-- The number of channels in a video frame (`CHANNEL_COUNT` in the source). -/
def CHANNEL_COUNT : Nat := 4

/-- Max pixel value in unsigned 8 bit int space (`MAX_PIXEL_VAL`). -/
def MAX_PIXEL_VAL : Nat := 255

/-- `PremiumVideoEffectConfig`: the mutable flag set of active effects. -/
structure PremiumVideoEffectConfig where
  blueShiftEnabled : Bool
  redShiftEnabled : Bool
deriving DecidableEq, Repr

/-- `ImageData`: flat byte buffer (4 bytes per pixel) plus dimensions. -/
structure ImageData where
  data : List Nat
  width : Nat
  height : Nat
deriving DecidableEq, Repr

/-- The per-byte closure `transformData` inside `PremiumVideoEffectDriver.apply`:
red shift forces channel 0 to 255, blue shift forces channel 2 to 255,
otherwise the byte passes through. -/
def transformData (config : PremiumVideoEffectConfig) (currentPixel idx : Nat) : Nat :=
  if config.redShiftEnabled && idx % CHANNEL_COUNT == 0 then
    MAX_PIXEL_VAL
  else if config.blueShiftEnabled && idx % CHANNEL_COUNT == 2 then
    MAX_PIXEL_VAL
  else
    currentPixel

/-- JavaScript's `Array.prototype.map` with the element index, as used by
`apply` on `inputImageData.data`: `mapWithIdx f i l` maps `f byte idx` over
`l`, indices starting at `i` (the call site uses `i = 0`). -/
def mapWithIdx (f : Nat → Nat → Nat) : Nat → List Nat → List Nat
  | _, [] => []
  | i, p :: rest => f p i :: mapWithIdx f (i + 1) rest

/-- `PremiumVideoEffectDriver.apply`: map `transformData` over the input
bytes and repack with the input's width and height. -/
def apply (config : PremiumVideoEffectConfig) (inputImageData : ImageData) : ImageData :=
  { data := mapWithIdx (transformData config) 0 inputImageData.data
    width := inputImageData.width
    height := inputImageData.height }

/-- Kind of a media track. -/
inductive TrackKind where
  | video
  | audio
deriving DecidableEq, Repr

/-- `MediaStreamTrack`: identity, kind, stopped status, and the video
settings (`getSettings().width` / `.height`) used by the handler. -/
structure Track where
  id : Nat
  kind : TrackKind
  stopped : Bool
  width : Nat
  height : Nat
deriving DecidableEq, Repr

/-- `MediaStream`: an identity plus an ordered list of tracks. -/
structure MediaStream where
  id : Nat
  tracks : List Track
deriving DecidableEq, Repr

/-- `MediaStream.getVideoTracks()`. -/
def MediaStream.getVideoTracks (s : MediaStream) : List Track :=
  s.tracks.filter (fun t => t.kind == TrackKind.video)

/-- `MediaStream.getAudioTracks()`. -/
def MediaStream.getAudioTracks (s : MediaStream) : List Track :=
  s.tracks.filter (fun t => t.kind == TrackKind.audio)

/-- `MediaStream.getTracks()`. -/
def MediaStream.getTracks (s : MediaStream) : List Track :=
  s.tracks

/-- A `MediaStream` is `active` while it holds at least one live
(non-stopped) track; a freshly constructed `new MediaStream()` is inactive. -/
def MediaStream.active (s : MediaStream) : Bool :=
  s.tracks.any (fun t => !t.stopped)

/-- `DEFAULT_FRAMERATE` in the source. -/
def DEFAULT_FRAMERATE : Nat := 15

/-- State of a `PremiumVideoStreamHandler` together with the observable
fields of the DOM objects it owns (video element, input canvas, output
canvas) and of the timer queue.

`lastTimeOut` is the field declared on line 22 of the source and read by
`stop()`; `lastTimeout` is the distinct, undeclared property that
`process` actually assigns on line 140 (under `@ts-ignore`). Both are kept
so the embedding reproduces the source exactly.

`pendingTimers` lists the identifiers of scheduled but not yet fired
`setTimeout(this.process, ·)` callbacks; `sinkWrites` counts
`putImageData` calls on the output canvas; `stoppedTrackLog` records the
ids of every track on which `.stop()` was invoked. -/
structure HandlerState where
  framerate : Nat
  lastTimeOut : Option Nat
  lastTimeout : Option Nat
  videoInputListensProcess : Bool
  videoInputSrcObject : Option Nat
  videoWidth : Nat
  videoHeight : Nat
  videoFrameData : List Nat
  canvasInputWidth : Nat
  canvasInputHeight : Nat
  canvasInputData : List Nat
  canvasOutputWidth : Nat
  canvasOutputHeight : Nat
  canvasOutputData : List Nat
  inputVideoStream : Option MediaStream
  outputMediaStream : MediaStream
  driverConfig : PremiumVideoEffectConfig
  pendingTimers : List Nat
  nextTimerId : Nat
  nextStreamId : Nat
  sinkWrites : Nat
  stoppedTrackLog : List Nat
deriving DecidableEq, Repr

namespace HandlerState

/-- A fresh handler: field initializers of `PremiumVideoStreamHandler`
(`new MediaStream()` for the output, freshly created DOM elements with the
default 300×150 canvas size, no timer scheduled). -/
def init (cfg : PremiumVideoEffectConfig) : HandlerState :=
  { framerate := DEFAULT_FRAMERATE
    lastTimeOut := none
    lastTimeout := none
    videoInputListensProcess := false
    videoInputSrcObject := none
    videoWidth := 0
    videoHeight := 0
    videoFrameData := []
    canvasInputWidth := 300
    canvasInputHeight := 150
    canvasInputData := []
    canvasOutputWidth := 300
    canvasOutputHeight := 150
    canvasOutputData := []
    inputVideoStream := none
    outputMediaStream := { id := 0, tracks := [] }
    driverConfig := cfg
    pendingTimers := []
    nextTimerId := 0
    nextStreamId := 1
    sinkWrites := 0
    stoppedTrackLog := [] }

/-- `isOutputMediaStreamActive()`: the output stream exists (always, in
this model) and is active. -/
def isOutputMediaStreamActive (s : HandlerState) : Bool :=
  s.outputMediaStream.active

/-- `cloneInputAudioTracksToOutput()`: a no-op unless the output stream is
active and an input stream is bound; otherwise remove every audio track
from the output stream, then add every audio track of the input stream. -/
def cloneInputAudioTracksToOutput (s : HandlerState) : HandlerState :=
  match s.inputVideoStream with
  | none => s
  | some ist =>
    if s.isOutputMediaStreamActive then
      { s with outputMediaStream :=
        { s.outputMediaStream with tracks :=
          s.outputMediaStream.tracks.filter (fun t => t.kind != TrackKind.audio)
            ++ ist.getAudioTracks } }
    else s

/-- `getActiveOutputMediaStream()`: return the output stream unchanged if
it is active; otherwise derive a fresh stream from the output canvas via
`captureStream(framerate)` (one live video track sized to the canvas),
synchronize audio tracks, and return it. The third component records
whether a capture was derived by this call. -/
def getActiveOutputMediaStream (s : HandlerState) : MediaStream × HandlerState × Bool :=
  if s.isOutputMediaStreamActive then
    (s.outputMediaStream, s, false)
  else
    let captured : MediaStream :=
      { id := s.nextStreamId
        tracks := [{ id := s.nextStreamId + 1, kind := TrackKind.video, stopped := false
                     width := s.canvasOutputWidth, height := s.canvasOutputHeight }] }
    let s1 := { s with outputMediaStream := captured, nextStreamId := s.nextStreamId + 2 }
    let s2 := cloneInputAudioTracksToOutput s1
    (s2.outputMediaStream, s2, true)

/-- `process`: one tick. Returns early when no input stream is bound;
otherwise draws the current video frame onto the input canvas (when the
video element reports a nonzero width), reads it back, transforms it with
the effect driver, resizes the output canvas only when *both* its width
and its height differ from the video's (the `&&` on source lines 123–126),
writes the transformed frame to the output canvas, and schedules the next
tick — saving the timer handle in the undeclared field `lastTimeout`
(source line 140), not in the declared `lastTimeOut`. -/
def process (s : HandlerState) : HandlerState :=
  match s.inputVideoStream with
  | none => s
  | some _ =>
    let s :=
      if s.videoWidth != 0 then
        { s with canvasInputWidth := s.videoWidth
                 canvasInputHeight := s.videoHeight
                 canvasInputData := s.videoFrameData }
      else s
    let inputImageData : ImageData :=
      { data := s.canvasInputData, width := s.canvasInputWidth, height := s.canvasInputHeight }
    let transformedImageData := apply s.driverConfig inputImageData
    let s :=
      if s.canvasOutputWidth != s.videoWidth && s.canvasOutputHeight != s.videoHeight then
        { s with canvasOutputWidth := s.videoWidth, canvasOutputHeight := s.videoHeight }
      else s
    let s := { s with canvasOutputData := transformedImageData.data, sinkWrites := s.sinkWrites + 1 }
    { s with pendingTimers := s.pendingTimers ++ [s.nextTimerId]
             lastTimeout := some s.nextTimerId
             nextTimerId := s.nextTimerId + 1 }

/-- Environment step: a scheduled `setTimeout(this.process, ·)` fires.
Firing consumes the pending timer and invokes `process`; firing an
identifier that is not pending does nothing. -/
def fireTimer (t : Nat) (s : HandlerState) : HandlerState :=
  if t ∈ s.pendingTimers then process { s with pendingTimers := s.pendingTimers.erase t }
  else s

/-- Environment step: the video element dispatches `loadedmetadata`,
invoking `process` iff the handler's listener is attached. -/
def fireLoadedMetadata (s : HandlerState) : HandlerState :=
  if s.videoInputListensProcess then process s else s

/-- `destroyInputMediaAndBuffers()`: stop every track of the bound input
stream (recorded in `stoppedTrackLog`) and clear the reference. -/
def destroyInputMediaAndBuffers (s : HandlerState) : HandlerState :=
  match s.inputVideoStream with
  | none => { s with inputVideoStream := none }
  | some ist =>
    { s with stoppedTrackLog := s.stoppedTrackLog ++ ist.getTracks.map Track.id
             inputVideoStream := none }

/-- `stop()`: unbind the `loadedmetadata` listener and the video element's
source, tear down the input, stop every output track (keeping the output
stream object itself), then clear the pending timer *if `lastTimeOut`
holds one* — which it never does, since `process` assigns `lastTimeout`. -/
def stop (s : HandlerState) : HandlerState :=
  let s := { s with videoInputListensProcess := false, videoInputSrcObject := none }
  let s := destroyInputMediaAndBuffers s
  let s :=
    { s with stoppedTrackLog := s.stoppedTrackLog ++ s.outputMediaStream.getTracks.map Track.id
             outputMediaStream :=
               { s.outputMediaStream with tracks :=
                 s.outputMediaStream.tracks.map (fun (t : Track) => { t with stopped := true }) } }
  match s.lastTimeOut with
  | some t => { s with pendingTimers := s.pendingTimers.erase t, lastTimeOut := none }
  | none => s

/-- `setInputMediaStream(stream | null)`: `null` stops the handler; a
stream with no video track is reported (`logger.error`) and ignored with
no state change; otherwise the stream is bound, the output canvas is sized
from the first video track's settings, the `loadedmetadata` → `process`
listener is attached and the video element is started
(`startVideoOnMediaStream`), and audio tracks are synchronized. The `Bool`
records whether `logger.error` was called; the TypeScript method never
throws on any of these paths. -/
def setInputMediaStream (s : HandlerState) (input : Option MediaStream) :
    HandlerState × Bool :=
  match input with
  | none => (stop s, false)
  | some ist =>
    match ist.getVideoTracks with
    | [] => (s, true)
    | vt :: _ =>
      let s := { s with inputVideoStream := some ist }
      let s := { s with canvasOutputWidth := vt.width, canvasOutputHeight := vt.height }
      let s := { s with videoInputListensProcess := true, videoInputSrcObject := some ist.id }
      (cloneInputAudioTracksToOutput s, false)

end HandlerState

/-- The inner `Device`: either a physical-device identifier or a raw
`MediaStream` (the source distinguishes them by probing
`(this.device as MediaStream).id`). -/
inductive Device where
  | physical (id : Nat)
  | mediaStream (ms : MediaStream)
deriving DecidableEq, Repr

/-- The truthiness of `this.device && (this.device as MediaStream).id`: a
physical identifier has no `id` property, a stream does. -/
def Device.isMediaStreamLike : Device → Bool
  | Device.physical _ => false
  | Device.mediaStream _ => true

/-- A `PremiumVideoEffectDriver` is heap-allocated and shared by reference
between transform devices; a `DriverStore` maps each driver reference to
the `PremiumVideoEffectConfig` it currently holds. -/
def DriverStore : Type := Nat → PremiumVideoEffectConfig

/-- `PremiumVideoEffectDriver.setRedShiftState(enabled)`: mutate the
config held by the given driver. -/
def setRedShiftState (store : DriverStore) (driver : Nat) (enabled : Bool) : DriverStore :=
  fun r => if r = driver then { store r with redShiftEnabled := enabled } else store r

/-- `PremiumVideoEffectDriver.setBlueShiftState(enabled)`. -/
def setBlueShiftState (store : DriverStore) (driver : Nat) (enabled : Bool) : DriverStore :=
  fun r => if r = driver then { store r with blueShiftEnabled := enabled } else store r

/-- `PremiumVideoEffectDriver.getEffectConfig()`: return the live config
object held by the driver (no copy). -/
def getEffectConfig (store : DriverStore) (driver : Nat) : PremiumVideoEffectConfig :=
  store driver

/-- The fields of a `PremiumVideoTransformDevice` relevant to device
swapping: the bound inner device and the (shared, by-reference) effect
driver. -/
structure PremiumVideoTransformDevice where
  device : Device
  videoEffectDriver : Nat
deriving DecidableEq, Repr

/-- `chooseNewInnerDevice(newDevice)`: a new `PremiumVideoTransformDevice`
wired to `newDevice`, passing along the same `videoEffectDriver`. -/
def chooseNewInnerDevice (d : PremiumVideoTransformDevice) (newDevice : Device) :
    PremiumVideoTransformDevice :=
  { device := newDevice, videoEffectDriver := d.videoEffectDriver }

/-- `getInnerDevice()`. -/
def getInnerDevice (d : PremiumVideoTransformDevice) : Device :=
  d.device

/-- Mutable state of a `PremiumVideoTransformDevice` as a stream-lifecycle
façade: the inner device, the recorded raw input stream reference, and the
owned `PremiumVideoStreamHandler`. -/
structure TransformDeviceState where
  device : Device
  inputMediaStream : Option MediaStream
  handler : HandlerState
deriving DecidableEq, Repr

namespace TransformDeviceState

/-- `PremiumVideoTransformDevice.transformStream(mediaStream?)`: delegate
to the handler's `setInputMediaStream`, then unconditionally record
`mediaStream` as `this.inputMediaStream`, then return
`getActiveOutputMediaStream()`. -/
def transformStream (d : TransformDeviceState) (mediaStream : Option MediaStream) :
    TransformDeviceState × MediaStream :=
  let (h, _errorLogged) := d.handler.setInputMediaStream mediaStream
  let d := { d with handler := h, inputMediaStream := mediaStream }
  let (out, h2, _) := d.handler.getActiveOutputMediaStream
  ({ d with handler := h2 }, out)

/-- `PremiumVideoTransformDevice.stop()`: stop every *video* track of the
recorded input stream (if any) and clear the reference. The second
component lists the ids of the tracks on which `.stop()` was invoked. -/
def stop (d : TransformDeviceState) : TransformDeviceState × List Nat :=
  match d.inputMediaStream with
  | some ms => ({ d with inputMediaStream := none }, ms.getVideoTracks.map Track.id)
  | none => ({ d with inputMediaStream := none }, [])

/-- `onOutputStreamDisconnect()`: unless the inner device is itself a
`MediaStream`, stop every video track of the recorded input stream. The
second component lists the ids of the tracks on which `.stop()` was
invoked. -/
def onOutputStreamDisconnect (d : TransformDeviceState) : TransformDeviceState × List Nat :=
  if !d.device.isMediaStreamLike then
    match d.inputMediaStream with
    | some ms => (d, ms.getVideoTracks.map Track.id)
    | none => (d, [])
  else (d, [])

end TransformDeviceState

theorem mapWithIdx_length (f : Nat → Nat → Nat) (i : Nat) (l : List Nat) :
    (mapWithIdx f i l).length = l.length := by
  induction l generalizing i with
  | nil => rfl
  | cons p rest ih => simp [mapWithIdx, ih]

theorem mapWithIdx_getD (f : Nat → Nat → Nat) (i : Nat) (l : List Nat) (k : Nat)
    (h : k < l.length) :
    (mapWithIdx f i l).getD k 0 = f (l.getD k 0) (i + k) := by
  induction l generalizing i k with
  | nil => simp at h
  | cons p rest ih =>
    cases k with
    | zero => simp [mapWithIdx]
    | succ k =>
      simp only [mapWithIdx, List.getD_cons_succ]
      rw [ih (i + 1) k (by simpa using h)]
      ring_nf

theorem mapWithIdx_id (f : Nat → Nat → Nat) (i : Nat) (l : List Nat)
    (hf : ∀ p j, f p j = p) : mapWithIdx f i l = l := by
  induction l generalizing i with
  | nil => rfl
  | cons p rest ih => simp [mapWithIdx, hf, ih]

end PremiumVideo

namespace PremiumVideo

/-! ### Concrete execution scenarios

Tiny concrete streams (2×1-pixel frames) used to evaluate the embedded
handler on explicit inputs. -/

/-- Effect config with both effects off. -/
def cfg0 : PremiumVideoEffectConfig := { blueShiftEnabled := false, redShiftEnabled := false }

/-- A live 2×1 video track. -/
def vTrack1 : Track :=
  { id := 10, kind := TrackKind.video, stopped := false, width := 2, height := 1 }

/-- A live audio track. -/
def aTrack1 : Track :=
  { id := 11, kind := TrackKind.audio, stopped := false, width := 0, height := 0 }

/-- First input stream: one video track and one audio track. -/
def stream1 : MediaStream := { id := 100, tracks := [vTrack1, aTrack1] }

/-- A second live 2×1 video track. -/
def vTrack2 : Track :=
  { id := 20, kind := TrackKind.video, stopped := false, width := 2, height := 1 }

/-- Second input stream: one video track, no audio. -/
def stream2 : MediaStream := { id := 101, tracks := [vTrack2] }

/-- Handler after `setInputMediaStream(stream1)` on a fresh handler. -/
def s1 : HandlerState := (HandlerState.init cfg0 |>.setInputMediaStream (some stream1)).1

/-- `s1` once the video element has loaded `stream1`'s metadata and first
frame (environment effect of `load()`/`play()`). -/
def s2 : HandlerState :=
  { s1 with videoWidth := 2, videoHeight := 1, videoFrameData := [1, 2, 3, 4, 5, 6, 7, 8] }

/-- `s2` after the `loadedmetadata` event invoked `process` once: one tick
has run, and the chain's next invocation (timer `0`) is scheduled. -/
def s3 : HandlerState := s2.fireLoadedMetadata

/-- `s3` after the backing source switched to a 4×1 frame (width changed,
height unchanged), before the pending tick fires. -/
def s3wide : HandlerState :=
  { s3 with videoWidth := 4, videoHeight := 1
            videoFrameData := [1, 2, 3, 4, 5, 6, 7, 8, 9, 10, 11, 12, 13, 14, 15, 16] }

end PremiumVideo

namespace PremiumVideo

/-- C1: REFUTED as stated. In state `s3` a tick has run and scheduled its
next invocation (timer `0`). The scheduled invocation is *not* cancelled
by `stop()`: `process` saved the handle in the undeclared property
`lastTimeout`, while `stop()` inspects the declared field `lastTimeOut`,
which is still `none` — so `clearTimeout` never runs and timer `0` is
still pending after `stop()` returns. The tick then actually fires
(consuming the timer); it only refrains from writing to the sink because
the input stream was nulled, not because the chain was cancelled. -/
theorem stop_does_not_cancel_pending_tick :
    s3.pendingTimers = [0] ∧ s3.lastTimeout = some 0 ∧ s3.lastTimeOut = none ∧
    s3.stop.pendingTimers = [0] ∧ s3.stop.lastTimeOut = none ∧
    (s3.stop.fireTimer 0).sinkWrites = s3.sinkWrites ∧
    (s3.stop.fireTimer 0).pendingTimers = [] := by
  decide

/-- C2: REFUTED as stated. From `s3` (old chain's timer `0` pending),
`setInputMediaStream(stream2)` binds the new stream *without* stopping the
old chain: timer `0` is still pending afterwards. The new chain's first
tick then schedules timer `1` (two pending invocations coexist), and when
the old chain's timer `0` fires it processes onto the sink and reschedules
itself (timer `2`) — the two chains run interleaved on the same sink. -/
theorem setInput_does_not_stop_prior_loop :
    s3.pendingTimers = [0] ∧
    (s3.setInputMediaStream (some stream2)).1.pendingTimers = [0] ∧
    (s3.setInputMediaStream (some stream2)).1.inputVideoStream = some stream2 ∧
    ((s3.setInputMediaStream (some stream2)).1.fireLoadedMetadata).pendingTimers = [0, 1] ∧
    ((s3.setInputMediaStream (some stream2)).1.fireLoadedMetadata).sinkWrites = 2 ∧
    (((s3.setInputMediaStream (some stream2)).1.fireLoadedMetadata).fireTimer 0).pendingTimers
      = [1, 2] ∧
    (((s3.setInputMediaStream (some stream2)).1.fireLoadedMetadata).fireTimer 0).sinkWrites
      = 3 := by
  decide

/-- C3: REFUTED as stated. In `s3wide` the source's width (4) differs from
the output canvas's width (2) while the heights agree (1); on the next
tick the transformed frame is written to the sink (`sinkWrites` grows) but
the sink is *not* resized — the source's `&&` requires both dimensions to
differ — so the output canvas keeps its stale 2×1 size. -/
theorem tick_skips_resize_when_only_width_differs :
    s3wide.videoWidth = 4 ∧ s3wide.videoHeight = 1 ∧
    s3wide.canvasOutputWidth = 2 ∧ s3wide.canvasOutputHeight = 1 ∧
    (s3wide.fireTimer 0).sinkWrites = s3wide.sinkWrites + 1 ∧
    (s3wide.fireTimer 0).canvasOutputWidth = 2 ∧
    (s3wide.fireTimer 0).canvasOutputHeight = 1 := by
  decide

end PremiumVideo

namespace PremiumVideo

theorem transformData_eq (config : PremiumVideoEffectConfig) (p idx : Nat) :
    transformData config p idx =
      if config.redShiftEnabled = true ∧ idx % 4 = 0 then 255
      else if config.blueShiftEnabled = true ∧ idx % 4 = 2 then 255
      else p := by
  cases config with
  | mk blue red =>
    cases blue <;> cases red <;>
      simp [transformData, CHANNEL_COUNT, MAX_PIXEL_VAL] <;>
      split_ifs <;> simp_all

/-- C4: on any pixel buffer satisfying the `width*height*4` length
invariant, `apply` keeps the width, the height and the byte count, and the
output byte at each index is 255 where red shift hits channel 0, 255 where
blue shift hits channel 2, and the input byte otherwise; no index is both
channel 0 and channel 2, so the two flags act independently. -/
theorem apply_byte_semantics (config : PremiumVideoEffectConfig) (input : ImageData)
    (h : input.data.length = input.width * input.height * 4) :
    (apply config input).width = input.width ∧
    (apply config input).height = input.height ∧
    (apply config input).data.length = input.data.length ∧
    ∀ idx, idx < input.data.length →
      ((apply config input).data.getD idx 0 =
        if config.redShiftEnabled = true ∧ idx % 4 = 0 then 255
        else if config.blueShiftEnabled = true ∧ idx % 4 = 2 then 255
        else input.data.getD idx 0) ∧
      ¬(idx % 4 = 0 ∧ idx % 4 = 2) := by
  refine ⟨rfl, rfl, mapWithIdx_length _ _ _, fun idx hidx => ⟨?_, by omega⟩⟩
  have hg := mapWithIdx_getD (transformData config) 0 input.data idx hidx
  simp only [Nat.zero_add] at hg
  show (mapWithIdx (transformData config) 0 input.data).getD idx 0 = _
  rw [hg, transformData_eq]

/-- Closed instance of `apply_byte_semantics` with both flags on and the
1×1 buffer `[9, 9, 9, 9]`. -/
theorem apply_byte_semantics_witness :
    ([(9 : Nat), 9, 9, 9].length = 1 * 1 * 4) ∧
    (apply ⟨true, true⟩ ⟨[9, 9, 9, 9], 1, 1⟩).data.getD 0 0 = 255 ∧
    (apply ⟨true, true⟩ ⟨[9, 9, 9, 9], 1, 1⟩).data.getD 1 0 = 9 ∧
    (apply ⟨true, true⟩ ⟨[9, 9, 9, 9], 1, 1⟩).data.getD 2 0 = 255 := by
  have h0 := (apply_byte_semantics ⟨true, true⟩ ⟨[9, 9, 9, 9], 1, 1⟩ (by decide)).2.2.2
  refine ⟨by decide, ?_, ?_, ?_⟩
  · rw [(h0 0 (by decide)).1]; decide
  · rw [(h0 1 (by decide)).1]; decide
  · rw [(h0 2 (by decide)).1]; decide

/-- C5: with both effect flags false, `apply` is the identity: the output
is byte-for-byte the input buffer, with the same dimensions. -/
theorem apply_no_flags_is_identity (input : ImageData) :
    apply { blueShiftEnabled := false, redShiftEnabled := false } input = input := by
  cases input with
  | mk d w ht =>
    simp only [apply]
    rw [mapWithIdx_id _ 0 d (fun p j => by simp [transformData])]

end PremiumVideo

namespace PremiumVideo

theorem setInputMediaStream_rejects_no_video (s : HandlerState) (ist : MediaStream)
    (h : ist.getVideoTracks = []) :
    s.setInputMediaStream (some ist) = (s, true) := by
  simp [HandlerState.setInputMediaStream, h]

theorem getActiveOutput_of_active (s : HandlerState)
    (h : s.isOutputMediaStreamActive = true) :
    s.getActiveOutputMediaStream = (s.outputMediaStream, s, false) := by
  simp [HandlerState.getActiveOutputMediaStream, h]

/-- C6: presenting an input stream with zero video tracks makes
`setInputMediaStream` log an error (`true`), return normally (no thrown
error), and leave the handler state — bound input stream, timers,
canvases, output-stream tracks — exactly as it was. -/
theorem setInput_zero_video_tracks_ignored (s : HandlerState) (ist : MediaStream)
    (h : ist.getVideoTracks = []) :
    s.setInputMediaStream (some ist) = (s, true) :=
  setInputMediaStream_rejects_no_video s ist h

/-- Closed instance of `setInput_zero_video_tracks_ignored` on a fresh
handler and an audio-only stream. -/
theorem setInput_zero_video_tracks_ignored_witness :
    (MediaStream.mk 200 [aTrack1]).getVideoTracks = [] ∧
    (HandlerState.init cfg0).setInputMediaStream (some (MediaStream.mk 200 [aTrack1]))
      = (HandlerState.init cfg0, true) :=
  ⟨by decide, setInput_zero_video_tracks_ignored _ _ (by decide)⟩

/-- C7: once the output stream is active, `getActiveOutputMediaStream`
returns the stored output handle with no state change and no fresh
capture, and a second consecutive call returns the identical handle,
again without re-deriving the sink's video capture. -/
theorem getActiveOutput_idempotent_once_active (s : HandlerState)
    (h : s.isOutputMediaStreamActive = true) :
    s.getActiveOutputMediaStream = (s.outputMediaStream, s, false) ∧
    s.getActiveOutputMediaStream.2.1.getActiveOutputMediaStream
      = (s.outputMediaStream, s, false) := by
  have h1 := getActiveOutput_of_active s h
  exact ⟨h1, by rw [h1]; exact getActiveOutput_of_active s h⟩

/-- A handler whose output stream is active (it carries a live video
track) and which has `stream1` bound as input. -/
def sBound : HandlerState :=
  { HandlerState.init cfg0 with outputMediaStream := stream2, inputVideoStream := some stream1 }

/-- Closed instance of `getActiveOutput_idempotent_once_active` at
`sBound`. -/
theorem getActiveOutput_idempotent_once_active_witness :
    sBound.isOutputMediaStreamActive = true ∧
    (sBound.getActiveOutputMediaStream = (sBound.outputMediaStream, sBound, false) ∧
     sBound.getActiveOutputMediaStream.2.1.getActiveOutputMediaStream
       = (sBound.outputMediaStream, sBound, false)) :=
  ⟨by decide, getActiveOutput_idempotent_once_active sBound (by decide)⟩

theorem filter_audio_of_filter_not_audio (l : List Track) :
    (l.filter (fun t => t.kind != TrackKind.audio)).filter
      (fun t => t.kind == TrackKind.audio) = [] := by
  induction l with
  | nil => rfl
  | cons t rest ih => cases h : t.kind <;> simp [h, ih]

theorem filter_video_of_filter_not_audio (l : List Track) :
    (l.filter (fun t => t.kind != TrackKind.audio)).filter
      (fun t => t.kind == TrackKind.video) = l.filter (fun t => t.kind == TrackKind.video) := by
  induction l with
  | nil => rfl
  | cons t rest ih => cases h : t.kind <;> simp [h, ih]

theorem filter_audio_idem (l : List Track) :
    (l.filter (fun t => t.kind == TrackKind.audio)).filter
      (fun t => t.kind == TrackKind.audio) = l.filter (fun t => t.kind == TrackKind.audio) := by
  induction l with
  | nil => rfl
  | cons t rest ih => cases h : t.kind <;> simp [h, ih]

theorem filter_video_of_filter_audio (l : List Track) :
    (l.filter (fun t => t.kind == TrackKind.audio)).filter
      (fun t => t.kind == TrackKind.video) = [] := by
  induction l with
  | nil => rfl
  | cons t rest ih => cases h : t.kind <;> simp [h, ih]

/-- C8: audio synchronization is the identity on the handler state
whenever the output stream is inactive or no input stream is bound; when
the output is active and an input is bound, afterwards the output
stream's audio tracks are exactly the input's current audio tracks (stale
tracks removed) and its video tracks are untouched. -/
theorem cloneInputAudioTracks_sync (s : HandlerState) :
    ((s.isOutputMediaStreamActive = false ∨ s.inputVideoStream = none) →
      s.cloneInputAudioTracksToOutput = s) ∧
    (∀ ist : MediaStream, s.isOutputMediaStreamActive = true →
      s.inputVideoStream = some ist →
      s.cloneInputAudioTracksToOutput.outputMediaStream.getAudioTracks = ist.getAudioTracks ∧
      s.cloneInputAudioTracksToOutput.outputMediaStream.getVideoTracks
        = s.outputMediaStream.getVideoTracks) := by
  constructor
  · rintro (hInactive | hNone)
    · unfold HandlerState.cloneInputAudioTracksToOutput
      cases hin : s.inputVideoStream <;> simp [hInactive]
    · simp [HandlerState.cloneInputAudioTracksToOutput, hNone]
  · intro ist hAct hIn
    simp only [HandlerState.cloneInputAudioTracksToOutput, hIn, hAct, if_pos]
    unfold MediaStream.getAudioTracks MediaStream.getVideoTracks
    constructor
    · simp only [List.filter_append, filter_audio_of_filter_not_audio, filter_audio_idem,
        List.nil_append]
    · simp only [List.filter_append, filter_video_of_filter_not_audio,
        filter_video_of_filter_audio, List.append_nil]

/-- Closed instance of `cloneInputAudioTracks_sync` at `sBound` (active
output, `stream1` bound): the output's audio tracks become exactly
`stream1`'s. -/
theorem cloneInputAudioTracks_sync_witness :
    sBound.isOutputMediaStreamActive = true ∧ sBound.inputVideoStream = some stream1 ∧
    (sBound.cloneInputAudioTracksToOutput.outputMediaStream.getAudioTracks
       = stream1.getAudioTracks ∧
     sBound.cloneInputAudioTracksToOutput.outputMediaStream.getVideoTracks
       = sBound.outputMediaStream.getVideoTracks) :=
  ⟨by decide, by decide, (cloneInputAudioTracks_sync sBound).2 stream1 (by decide) (by decide)⟩

end PremiumVideo

namespace PremiumVideo

/-- C9: `chooseNewInnerDevice(d2)` yields a device bound to `d2` that
carries the very same effect-driver reference, so `getEffectConfig()`
reads the same shared config: a red-shift flag set through the original
device's driver reads back `true` through the new device. -/
theorem chooseNewInnerDevice_shares_config (d : PremiumVideoTransformDevice)
    (newDevice : Device) :
    (chooseNewInnerDevice d newDevice).device = newDevice ∧
    (chooseNewInnerDevice d newDevice).videoEffectDriver = d.videoEffectDriver ∧
    ∀ store : DriverStore,
      (getEffectConfig (setRedShiftState store d.videoEffectDriver true)
        (chooseNewInnerDevice d newDevice).videoEffectDriver).redShiftEnabled = true := by
  refine ⟨rfl, rfl, fun store => ?_⟩
  simp [getEffectConfig, setRedShiftState, chooseNewInnerDevice]

/-- C10: `transformStream(s)` unconditionally records `s` as the device's
input stream even when the handler rejected `s` for having zero video
tracks and kept its own state; afterwards the device no longer references
the previous input, and both `stop()` and `onOutputStreamDisconnect()`
stop exactly the (empty set of) video tracks of the rejected `s`, never
the old input's. -/
theorem transformStream_overwrites_input_ref (st : TransformDeviceState)
    (sOld sNew : MediaStream)
    (hOld : st.inputMediaStream = some sOld)
    (hNew : sNew.getVideoTracks = [])
    (hAct : st.handler.isOutputMediaStreamActive = true)
    (hDev : st.device.isMediaStreamLike = false)
    (hNe : sNew ≠ sOld) :
    (st.transformStream (some sNew)).1.inputMediaStream = some sNew ∧
    (st.transformStream (some sNew)).1.inputMediaStream ≠ some sOld ∧
    (st.transformStream (some sNew)).1.handler = st.handler ∧
    (st.transformStream (some sNew)).1.stop.2 = sNew.getVideoTracks.map Track.id ∧
    (st.transformStream (some sNew)).1.stop.2 = [] ∧
    (st.transformStream (some sNew)).1.stop.1.inputMediaStream = none ∧
    (st.transformStream (some sNew)).1.onOutputStreamDisconnect.2 = [] := by
  have hstep : (st.transformStream (some sNew)).1 = { st with inputMediaStream := some sNew } := by
    unfold TransformDeviceState.transformStream
    rw [setInputMediaStream_rejects_no_video st.handler sNew hNew]
    simp [getActiveOutput_of_active st.handler hAct]
  rw [hstep]
  refine ⟨rfl, by simp [hNe], rfl, ?_, ?_, ?_, ?_⟩
  · simp [TransformDeviceState.stop]
  · simp [TransformDeviceState.stop, hNew]
  · simp [TransformDeviceState.stop]
  · simp [TransformDeviceState.onOutputStreamDisconnect, hDev, hNew]

/-- A transform device on a physical inner device, with `stream1`
recorded as input and an active handler (`sBound`). -/
def devBound : TransformDeviceState :=
  { device := Device.physical 7, inputMediaStream := some stream1, handler := sBound }

/-- An audio-only stream (zero video tracks). -/
def audioOnlyStream : MediaStream := { id := 200, tracks := [aTrack1] }

/-- Closed instance of `transformStream_overwrites_input_ref` at
`devBound` and the audio-only stream. -/
theorem transformStream_overwrites_input_ref_witness :
    devBound.inputMediaStream = some stream1 ∧
    audioOnlyStream.getVideoTracks = [] ∧
    ((devBound.transformStream (some audioOnlyStream)).1.inputMediaStream
       = some audioOnlyStream ∧
     (devBound.transformStream (some audioOnlyStream)).1.inputMediaStream ≠ some stream1 ∧
     (devBound.transformStream (some audioOnlyStream)).1.handler = devBound.handler ∧
     (devBound.transformStream (some audioOnlyStream)).1.stop.2
       = audioOnlyStream.getVideoTracks.map Track.id ∧
     (devBound.transformStream (some audioOnlyStream)).1.stop.2 = [] ∧
     (devBound.transformStream (some audioOnlyStream)).1.stop.1.inputMediaStream = none ∧
     (devBound.transformStream (some audioOnlyStream)).1.onOutputStreamDisconnect.2 = []) := by
  refine ⟨by decide, by decide, ?_⟩
  have h := transformStream_overwrites_input_ref devBound stream1 audioOnlyStream
    (by decide) (by decide) (by decide) (by decide) (by decide)
  exact ⟨h.1, h.2.1, h.2.2.1, h.2.2.2.1, h.2.2.2.2.1, h.2.2.2.2.2.1, h.2.2.2.2.2.2⟩

end PremiumVideo
